import Mathlib

/-
  Shallow embedding of the query-execution core of firestore-rs
  (src/db/query.rs): the retrying executor, the document stream
  adapters, batch materialization, cursor pagination, and the
  partitioned-query orchestrator.

  Modelling conventions:
  * a gRPC response stream is embedded as the finite list of the
    elements it delivers, in delivery order;
  * the network is an explicit oracle function passed to each
    operation (for retried calls the oracle is indexed by the
    attempt number, mirroring the fact that each attempt is a
    fresh RPC that may answer differently);
  * the cursor-pagination unfold is given a fuel parameter (the
    real loop runs until the server stops returning continuation
    tokens; fuel bounds the number of pages the model can fetch,
    which is no restriction for any finite server behaviour);
  * `for_each_concurrent` is embedded as a small-step transition
    system over counters of pending and in-flight range tasks.
-/

namespace FirestoreRs

/-- Opaque server-issued position marker bounding a partition
(`FirestoreQueryCursor` in the source). -/
structure FirestoreQueryCursor where
  val : Nat
deriving DecidableEq

/-- Opaque server-returned record (`Document` in the source). -/
structure Document where
  name : String
deriving DecidableEq

/-- Server-reported failure payload: the source's
`FirestoreDatabaseError` carries an explicit retry-eligibility flag. -/
structure FirestoreDatabaseError where
  retry_possible : Bool
  details : String
deriving DecidableEq

/-- Error taxonomy of the core. Only the `DatabaseError` variant carries
the retry flag consulted by the retrying executor; every other source
variant is non-retryable there, so they are collapsed into
`SystemError`. -/
inductive FirestoreError where
  | DatabaseError (db_err : FirestoreDatabaseError)
  | SystemError (message : String)
deriving DecidableEq

/-- Logical query description (`FirestoreQueryParams`): the fields the
core manipulates. The filter/order/projection payload is opaque to the
core and omitted. -/
structure FirestoreQueryParams where
  parent : Option String
  collection_id : String
  start_at : Option FirestoreQueryCursor
  end_at : Option FirestoreQueryCursor
deriving DecidableEq

/-- Source `mopt_start_at`: overwrite the optional start bound. -/
def FirestoreQueryParams.mopt_start_at (params : FirestoreQueryParams)
    (cursor : Option FirestoreQueryCursor) : FirestoreQueryParams :=
  { params with start_at := cursor }

/-- Source `mopt_end_at`: overwrite the optional end bound. -/
def FirestoreQueryParams.mopt_end_at (params : FirestoreQueryParams)
    (cursor : Option FirestoreQueryCursor) : FirestoreQueryParams :=
  { params with end_at := cursor }

/-- A resolved half-open range of the keyspace (`FirestorePartition`). -/
structure FirestorePartition where
  start_at : Option FirestoreQueryCursor
  end_at : Option FirestoreQueryCursor
deriving DecidableEq

/-- Source `FirestorePartition::new()`: a partition with no bounds. -/
def FirestorePartition.new : FirestorePartition :=
  { start_at := none, end_at := none }

/-- Source `opt_start_at` builder. -/
def FirestorePartition.opt_start_at (p : FirestorePartition)
    (cursor : Option FirestoreQueryCursor) : FirestorePartition :=
  { p with start_at := cursor }

/-- Source `opt_end_at` builder. -/
def FirestorePartition.opt_end_at (p : FirestorePartition)
    (cursor : Option FirestoreQueryCursor) : FirestorePartition :=
  { p with end_at := cursor }

/-- `FirestorePartitionQueryParams`: query params plus partitioning
knobs and the pagination continuation token. -/
structure FirestorePartitionQueryParams where
  query_params : FirestoreQueryParams
  partition_count : Nat
  page_size : Nat
  page_token : Option String
deriving DecidableEq

/-- Source `with_page_token`: carry the continuation token forward. -/
def FirestorePartitionQueryParams.with_page_token
    (params : FirestorePartitionQueryParams) (token : String) :
    FirestorePartitionQueryParams :=
  { params with page_token := some token }

/-- The element sequence of one raw `run_query` response stream: each
element either delivers an optional document (`r.document`, which may
be absent for keep-alive entries) or a per-item error. -/
abbrev RawQueryStream := List (Except FirestoreError (Option Document))

/-- The retry guard of both retrying executors: the source retries
exactly on `FirestoreError::DatabaseError(db_err) if
db_err.retry_possible` (query.rs lines 135-137 and 199-201). -/
def is_retry_eligible : FirestoreError → Bool
  | .DatabaseError db_err => db_err.retry_possible
  | .SystemError _ => false

/-- Whether an oracle outcome is a retry-eligible database error. -/
def is_eligible_db_error : Except FirestoreError RawQueryStream → Bool
  | .error err => is_retry_eligible err
  | .ok _ => false

/-- Embedding of `FirestoreDb::stream_query_doc_with_retries`
(query.rs lines 94-154): attempt the RPC for the current attempt
index; on success hand back the raw response stream unconsumed; on a
retry-eligible database error below the retry cap recurse with the
attempt counter bumped; otherwise return the error unchanged. The
oracle `rpc` maps the attempt index to that attempt's outcome. -/
def stream_query_doc_with_retries (maxRetries : Nat)
    (rpc : Nat → Except FirestoreError RawQueryStream) (retries : Nat) :
    Except FirestoreError RawQueryStream :=
  match rpc retries with
  | .ok query_stream => .ok query_stream
  | .error err =>
    if h : is_retry_eligible err = true ∧ retries < maxRetries then
      stream_query_doc_with_retries maxRetries rpc (retries + 1)
    else
      .error err
termination_by maxRetries - retries
decreasing_by
  omega

/-- Source `try_collect` on a result stream: materialize all elements,
short-circuiting with the first error. -/
def tryCollect {ε α : Type} : List (Except ε α) → Except ε (List α)
  | [] => .ok []
  | .ok a :: rest =>
    match tryCollect rest with
    | .ok collected => .ok (a :: collected)
    | .error e => .error e
  | .error e :: _ => .error e

/-- The batch materialization step of `query_doc_with_retries`
(query.rs lines 173-181): `try_collect` the optional documents —
failing the whole call on the first item error — then flatten away the
absent-document markers. -/
def collect_documents (items : RawQueryStream) :
    Except FirestoreError (List Document) :=
  match tryCollect items with
  | .ok docs => .ok (docs.filterMap id)
  | .error e => .error e

/-- Embedding of `FirestoreDb::query_doc_with_retries` (query.rs lines
156-216): same retry structure as the streaming variant, but a
successful attempt is fully materialized via `collect_documents`. -/
def query_doc_with_retries (maxRetries : Nat)
    (rpc : Nat → Except FirestoreError RawQueryStream) (retries : Nat) :
    Except FirestoreError (List Document) :=
  match rpc retries with
  | .ok items => collect_documents items
  | .error err =>
    if h : is_retry_eligible err = true ∧ retries < maxRetries then
      query_doc_with_retries maxRetries rpc (retries + 1)
    else
      .error err
termination_by maxRetries - retries
decreasing_by
  omega

/-- Ghost instrumentation: how many RPC attempts the retrying executors
make, starting from attempt index `retries`. Both source executors
branch identically on the establishment outcome, so one counter serves
both. -/
def run_query_attempts (maxRetries : Nat)
    (rpc : Nat → Except FirestoreError RawQueryStream) (retries : Nat) : Nat :=
  match rpc retries with
  | .ok _ => 1
  | .error err =>
    if h : is_retry_eligible err = true ∧ retries < maxRetries then
      1 + run_query_attempts maxRetries rpc (retries + 1)
    else
      1
termination_by maxRetries - retries
decreasing_by
  omega

/-- Source `query_doc` (query.rs lines 221-230): the batch entry point
starts the retrying executor at attempt 0. -/
def query_doc (maxRetries : Nat)
    (rpc : Nat → Except FirestoreError RawQueryStream) :
    Except FirestoreError (List Document) :=
  query_doc_with_retries maxRetries rpc 0

/-- The drop-errors filter closure of `stream_query_doc` (query.rs
lines 247-256): keep documents, silently discard absent-document
markers and per-item errors. -/
def stream_query_doc_filter (items : RawQueryStream) : List Document :=
  items.filterMap (fun doc_res =>
    match doc_res with
    | .ok (some doc) => some doc
    | .ok none => none
    | .error _ => none)

/-- The surface-errors filter closure of `stream_query_doc_with_errors`
(query.rs lines 274-283): keep documents as successes, discard
absent-document markers, re-emit per-item errors in place. -/
def stream_query_doc_with_errors_filter (items : RawQueryStream) :
    List (Except FirestoreError Document) :=
  items.filterMap (fun doc_res =>
    match doc_res with
    | .ok (some doc) => some (.ok doc)
    | .ok none => none
    | .error err => some (.error err))

/-- Source `stream_query_doc` (query.rs lines 232-257): establish the
stream with retries, then apply the drop-errors filter lazily. -/
def stream_query_doc (maxRetries : Nat)
    (rpc : Nat → Except FirestoreError RawQueryStream) :
    Except FirestoreError (List Document) :=
  (stream_query_doc_with_retries maxRetries rpc 0).map stream_query_doc_filter

/-- Source `stream_query_doc_with_errors` (query.rs lines 259-284):
establish the stream with retries, then apply the surface-errors
filter lazily. -/
def stream_query_doc_with_errors (maxRetries : Nat)
    (rpc : Nat → Except FirestoreError RawQueryStream) :
    Except FirestoreError (List (Except FirestoreError Document)) :=
  (stream_query_doc_with_retries maxRetries rpc 0).map
    stream_query_doc_with_errors_filter

/-- Embedding of `stream_partition_cursors_with_errors` (query.rs lines
333-415): the unfold over the continuation token. Each step issues the
partition-discovery RPC with the current params; on success it emits
every cursor of the page in order and continues exactly when the
response's next-page token is non-empty (carrying the token forward via
`with_page_token`); on failure it emits a single error element and
stops permanently. `fuel` bounds the number of pages the model can
fetch. -/
def stream_partition_cursors_with_errors
    (pfetch : FirestorePartitionQueryParams →
      Except FirestoreError (List FirestoreQueryCursor × String))
    (fuel : Nat) (params : FirestorePartitionQueryParams) :
    List (Except FirestoreError FirestoreQueryCursor) :=
  match fuel with
  | 0 => []
  | fuel + 1 =>
    match pfetch params with
    | .ok (firestore_cursors, next_page_token) =>
      if next_page_token ≠ "" then
        firestore_cursors.map .ok ++
          stream_partition_cursors_with_errors pfetch fuel
            (params.with_page_token next_page_token)
      else
        firestore_cursors.map .ok
    | .error err => [.error err]

/-- Consecutive pairs of a list: the embedding of `windows(2)` over the
boundary vector (query.rs line 466). -/
def windows2 {α : Type} : List α → List (α × α)
  | a :: b :: rest => (a, b) :: windows2 (b :: rest)
  | _ => []

/-- The boundary vector built at query.rs lines 457-461:
`[None] ++ cursors.map(Some) ++ [None]`. -/
def cursors_pairs (cursors : List FirestoreQueryCursor) :
    List (Option FirestoreQueryCursor) :=
  none :: (cursors.map some ++ [none])

/-- The sub-query params derived for one boundary pair (query.rs lines
478-484): copy the base params and overwrite both range bounds with the
pair's endpoints (`first()`/`last()` of a 2-window are its two
elements). -/
def range_sub_query_params (base : FirestoreQueryParams)
    (cursor_pair : Option FirestoreQueryCursor × Option FirestoreQueryCursor) :
    FirestoreQueryParams :=
  (base.mopt_start_at cursor_pair.1).mopt_end_at cursor_pair.2

/-- The partition tag built for one boundary pair (query.rs line 486):
copies the bounds actually placed on the sub-query params. -/
def range_partition (base : FirestoreQueryParams)
    (cursor_pair : Option FirestoreQueryCursor × Option FirestoreQueryCursor) :
    FirestorePartition :=
  (FirestorePartition.new.opt_start_at
      (range_sub_query_params base cursor_pair).start_at).opt_end_at
    (range_sub_query_params base cursor_pair).end_at

/-- Ghost projection: the list of sub-query params the orchestrator
issues, one per boundary pair. -/
def issued_range_queries (base : FirestoreQueryParams)
    (cursors : List FirestoreQueryCursor) : List FirestoreQueryParams :=
  (windows2 (cursors_pairs cursors)).map (range_sub_query_params base)

/-- The messages one range worker pushes into the fan-in queue
(query.rs lines 470-518): run the error-surfacing streaming query with
the range-bounded params; on success forward every element with the
range's partition tag attached to the successes; on an establishment
failure push exactly one error element for the range. -/
def partition_range_messages (maxRetries : Nat)
    (qrpc : FirestoreQueryParams → Nat → Except FirestoreError RawQueryStream)
    (base : FirestoreQueryParams)
    (cursor_pair : Option FirestoreQueryCursor × Option FirestoreQueryCursor) :
    List (Except FirestoreError (FirestorePartition × Document)) :=
  match stream_query_doc_with_errors maxRetries
      (qrpc (range_sub_query_params base cursor_pair)) with
  | .ok result_stream =>
    result_stream.map (fun doc_res =>
      doc_res.map (fun doc => (range_partition base cursor_pair, doc)))
  | .error err => [.error err]

/-- Embedding of `stream_partition_query_doc_with_errors` (query.rs
lines 417-525). Collect the cursor pagination stream via `try_collect`
(the first error element fails the whole call); with zero cursors fall
back to a single unpartitioned error-surfacing query whose documents
are tagged with an unbounded partition; otherwise run one range
sub-query per consecutive boundary pair and fan all messages into one
queue. The source awaits `for_each_concurrent` before returning the
receiver stream, so the queue contents are fully determined at return
time; the model accordingly returns the materialized queue. The
interleaving of the concurrent workers is abstracted as concatenation
in range order (the claims proved below do not depend on the
cross-partition arrival order). `parallelism` does not affect which
messages are produced, only their interleaving; the concurrency cap
itself is modelled separately by `ForEachConcurrentStep`. -/
def stream_partition_query_doc_with_errors (maxRetries parallelism fuel : Nat)
    (pfetch : FirestorePartitionQueryParams →
      Except FirestoreError (List FirestoreQueryCursor × String))
    (qrpc : FirestoreQueryParams → Nat → Except FirestoreError RawQueryStream)
    (partition_params : FirestorePartitionQueryParams) :
    Except FirestoreError
      (List (Except FirestoreError (FirestorePartition × Document))) :=
  match tryCollect
      (stream_partition_cursors_with_errors pfetch fuel partition_params) with
  | .error e => .error e
  | .ok cursors =>
    if cursors.isEmpty then
      match stream_query_doc_with_errors maxRetries
          (qrpc partition_params.query_params) with
      | .ok doc_stream =>
        .ok (doc_stream.map (fun doc_res =>
          doc_res.map (fun doc => (FirestorePartition.new, doc))))
      | .error e => .error e
    else
      .ok (((windows2 (cursors_pairs cursors)).map
        (partition_range_messages maxRetries qrpc
          partition_params.query_params)).flatten)

/-- Ghost instrumentation for the fallback decision: the orchestrator
falls back to the unpartitioned query exactly when the fully collected
cursor list is empty (query.rs line 443). -/
def orchestrator_falls_back
    (pfetch : FirestorePartitionQueryParams →
      Except FirestoreError (List FirestoreQueryCursor × String))
    (fuel : Nat) (partition_params : FirestorePartitionQueryParams) : Bool :=
  match tryCollect
      (stream_partition_cursors_with_errors pfetch fuel partition_params) with
  | .ok cursors => cursors.isEmpty
  | .error _ => false

/-- Ghost instrumentation: how many cursor-stream elements the
orchestrator consumes before reaching the fallback decision. The
source's `try_collect().await?` (query.rs lines 437-441) drains the
entire peekable stream before the `is_empty` test, so the count is the
full stream length. -/
def cursor_elements_collected_before_branch
    (pfetch : FirestorePartitionQueryParams →
      Except FirestoreError (List FirestoreQueryCursor × String))
    (fuel : Nat) (partition_params : FirestorePartitionQueryParams) : Nat :=
  (stream_partition_cursors_with_errors pfetch fuel partition_params).length

/-- State of the bounded fan-out stage: counters of range tasks not yet
started and range tasks currently in flight. -/
structure ForEachConcurrentState where
  pending : Nat
  active : Nat
deriving DecidableEq

/-- Small-step semantics of `for_each_concurrent(Some(limit), ...)`
(query.rs lines 466-519), modelled from the futures library contract:
a pending task may start only while the in-flight count is below the
limit, except that a limit of zero is interpreted by the library as no
limit at all; an in-flight task may finish at any time. -/
inductive ForEachConcurrentStep (limit : Nat) :
    ForEachConcurrentState → ForEachConcurrentState → Prop where
  | start (s : ForEachConcurrentState)
      (hslot : s.active < limit ∨ limit = 0) (hpending : 0 < s.pending) :
      ForEachConcurrentStep limit s
        { pending := s.pending - 1, active := s.active + 1 }
  | finish (s : ForEachConcurrentState) (hactive : 0 < s.active) :
      ForEachConcurrentStep limit s
        { pending := s.pending, active := s.active - 1 }

/-- Reachability from the initial state in which all `n` range tasks
are pending and none is in flight. -/
inductive ForEachConcurrentReachable (limit n : Nat) :
    ForEachConcurrentState → Prop where
  | init : ForEachConcurrentReachable limit n { pending := n, active := 0 }
  | step (s t : ForEachConcurrentState) :
      ForEachConcurrentReachable limit n s → ForEachConcurrentStep limit s t →
      ForEachConcurrentReachable limit n t

/-- A successful attempt stops the streaming retry loop at once. -/
lemma stream_retries_rpc_ok (maxRetries : Nat)
    (rpc : Nat → Except FirestoreError RawQueryStream) (retries : Nat)
    (v : RawQueryStream) (h : rpc retries = .ok v) :
    stream_query_doc_with_retries maxRetries rpc retries = .ok v := by
  rw [stream_query_doc_with_retries.eq_def, h]

/-- A failed attempt that is not retried returns its error unchanged
(streaming executor). -/
lemma stream_retries_rpc_error_stop (maxRetries : Nat)
    (rpc : Nat → Except FirestoreError RawQueryStream) (retries : Nat)
    (e : FirestoreError) (h : rpc retries = .error e)
    (hstop : ¬ (is_retry_eligible e = true ∧ retries < maxRetries)) :
    stream_query_doc_with_retries maxRetries rpc retries = .error e := by
  rw [stream_query_doc_with_retries.eq_def, h]
  simp [hstop]

/-- A retry-eligible failure below the cap makes the streaming executor
recurse with the attempt counter bumped. -/
lemma stream_retries_rpc_error_retry (maxRetries : Nat)
    (rpc : Nat → Except FirestoreError RawQueryStream) (retries : Nat)
    (e : FirestoreError) (h : rpc retries = .error e)
    (he : is_retry_eligible e = true) (hr : retries < maxRetries) :
    stream_query_doc_with_retries maxRetries rpc retries =
      stream_query_doc_with_retries maxRetries rpc (retries + 1) := by
  rw [stream_query_doc_with_retries.eq_def, h]
  simp [he, hr]

/-- A successful attempt stops the batch retry loop and materializes. -/
lemma query_retries_rpc_ok (maxRetries : Nat)
    (rpc : Nat → Except FirestoreError RawQueryStream) (retries : Nat)
    (v : RawQueryStream) (h : rpc retries = .ok v) :
    query_doc_with_retries maxRetries rpc retries = collect_documents v := by
  rw [query_doc_with_retries.eq_def, h]

/-- A failed attempt that is not retried returns its error unchanged
(batch executor). -/
lemma query_retries_rpc_error_stop (maxRetries : Nat)
    (rpc : Nat → Except FirestoreError RawQueryStream) (retries : Nat)
    (e : FirestoreError) (h : rpc retries = .error e)
    (hstop : ¬ (is_retry_eligible e = true ∧ retries < maxRetries)) :
    query_doc_with_retries maxRetries rpc retries = .error e := by
  rw [query_doc_with_retries.eq_def, h]
  simp [hstop]

/-- A retry-eligible failure below the cap makes the batch executor
recurse with the attempt counter bumped. -/
lemma query_retries_rpc_error_retry (maxRetries : Nat)
    (rpc : Nat → Except FirestoreError RawQueryStream) (retries : Nat)
    (e : FirestoreError) (h : rpc retries = .error e)
    (he : is_retry_eligible e = true) (hr : retries < maxRetries) :
    query_doc_with_retries maxRetries rpc retries =
      query_doc_with_retries maxRetries rpc (retries + 1) := by
  rw [query_doc_with_retries.eq_def, h]
  simp [he, hr]

/-- The attempt counter on a terminal attempt. -/
lemma attempts_rpc_stop (maxRetries : Nat)
    (rpc : Nat → Except FirestoreError RawQueryStream) (retries : Nat)
    (h : ∀ e, rpc retries = .error e →
      ¬ (is_retry_eligible e = true ∧ retries < maxRetries)) :
    run_query_attempts maxRetries rpc retries = 1 := by
  rw [run_query_attempts.eq_def]
  cases hrr : rpc retries with
  | ok v => rfl
  | error e => simp [h e hrr]

/-- The attempt counter on a retried attempt. -/
lemma attempts_rpc_retry (maxRetries : Nat)
    (rpc : Nat → Except FirestoreError RawQueryStream) (retries : Nat)
    (e : FirestoreError) (h : rpc retries = .error e)
    (he : is_retry_eligible e = true) (hr : retries < maxRetries) :
    run_query_attempts maxRetries rpc retries =
      1 + run_query_attempts maxRetries rpc (retries + 1) := by
  rw [run_query_attempts.eq_def, h]
  simp [he, hr]

/-- Core retry lemma, success case: starting at attempt index `r`, if
the next `k` attempts fail retry-eligibly and attempt `r + k` (still
within the cap) succeeds with stream `v`, both executors stop at that
success after exactly `k + 1` attempts. -/
lemma retry_success_general (maxRetries : Nat)
    (rpc : Nat → Except FirestoreError RawQueryStream) :
    ∀ k r v, r + k ≤ maxRetries →
      (∀ i, i < k → is_eligible_db_error (rpc (r + i)) = true) →
      rpc (r + k) = .ok v →
      stream_query_doc_with_retries maxRetries rpc r = .ok v ∧
        query_doc_with_retries maxRetries rpc r = collect_documents v ∧
        run_query_attempts maxRetries rpc r = k + 1 := by
  intro k
  induction k with
  | zero =>
    intro r v hle hall hok
    rw [Nat.add_zero] at hok
    refine ⟨stream_retries_rpc_ok maxRetries rpc r v hok,
      query_retries_rpc_ok maxRetries rpc r v hok, ?_⟩
    rw [run_query_attempts.eq_def, hok]
  | succ k ih =>
    intro r v hle hall hok
    have h0 := hall 0 (by omega)
    rw [Nat.add_zero] at h0
    cases hrr : rpc r with
    | ok s =>
      rw [hrr] at h0
      simp [is_eligible_db_error] at h0
    | error e =>
      rw [hrr] at h0
      simp only [is_eligible_db_error] at h0
      have hr : r < maxRetries := by omega
      have ihr := ih (r + 1) v (by omega)
        (fun i hi => by
          have hh := hall (i + 1) (by omega)
          rw [show r + (i + 1) = r + 1 + i by omega] at hh
          exact hh)
        (by rw [show r + 1 + k = r + (k + 1) by omega]; exact hok)
      refine ⟨?_, ?_, ?_⟩
      · rw [stream_retries_rpc_error_retry maxRetries rpc r e hrr h0 hr]
        exact ihr.1
      · rw [query_retries_rpc_error_retry maxRetries rpc r e hrr h0 hr]
        exact ihr.2.1
      · rw [attempts_rpc_retry maxRetries rpc r e hrr h0 hr, ihr.2.2]
        omega

/-- Core retry lemma, exhaustion case: starting at attempt index `r`
within the cap, if every attempt up to the cap fails retry-eligibly,
both executors make exactly `maxRetries - r + 1` attempts and return
the error of the final attempt unchanged. -/
lemma retry_exhaust_general (maxRetries : Nat)
    (rpc : Nat → Except FirestoreError RawQueryStream) :
    ∀ n r, r ≤ maxRetries → maxRetries - r = n →
      (∀ i, r ≤ i → i ≤ maxRetries → is_eligible_db_error (rpc i) = true) →
      run_query_attempts maxRetries rpc r = (maxRetries - r) + 1 ∧
        ∀ e, rpc maxRetries = .error e →
          stream_query_doc_with_retries maxRetries rpc r = .error e ∧
            query_doc_with_retries maxRetries rpc r = .error e := by
  intro n
  induction n with
  | zero =>
    intro r hr hn hall
    have hrm : r = maxRetries := by omega
    subst hrm
    have hstop : ∀ e, rpc r = .error e →
        ¬ (is_retry_eligible e = true ∧ r < r) := by
      intro e _ hc
      exact absurd hc.2 (lt_irrefl r)
    constructor
    · rw [attempts_rpc_stop r rpc r hstop]
      omega
    · intro e he
      exact ⟨stream_retries_rpc_error_stop r rpc r e he (hstop e he),
        query_retries_rpc_error_stop r rpc r e he (hstop e he)⟩
  | succ n ih =>
    intro r hr hn hall
    have hrlt : r < maxRetries := by omega
    have h0 := hall r le_rfl hr
    cases hrr : rpc r with
    | ok s =>
      rw [hrr] at h0
      simp [is_eligible_db_error] at h0
    | error e =>
      rw [hrr] at h0
      simp only [is_eligible_db_error] at h0
      have ihr := ih (r + 1) (by omega) (by omega)
        (fun i h1 h2 => hall i (by omega) h2)
      constructor
      · rw [attempts_rpc_retry maxRetries rpc r e hrr h0 hrlt, ihr.1]
        omega
      · intro efin hefin
        have hres := ihr.2 efin hefin
        refine ⟨?_, ?_⟩
        · rw [stream_retries_rpc_error_retry maxRetries rpc r e hrr h0 hrlt]
          exact hres.1
        · rw [query_retries_rpc_error_retry maxRetries rpc r e hrr h0 hrlt]
          exact hres.2

/-- C1: For every query (batch `query_doc` or stream establishment
`stream_query_doc*`), if the RPC fails with a non-retry-eligible error
the query is attempted exactly once and that error is returned; if it
fails with a retry-eligible DatabaseError and would first succeed on
attempt `k + 1` with `k` within the cap, it is attempted exactly
`min (k + 1) (maxRetries + 1)` times and returns that success (the
batch call returning its materialization); if every attempt up to the
cap fails retry-eligibly, it is attempted exactly `maxRetries + 1`
times and the error of the last attempt is returned unchanged. -/
theorem retry_executor_contract (maxRetries : Nat)
    (rpc : Nat → Except FirestoreError RawQueryStream) :
    (∀ e, rpc 0 = .error e → is_retry_eligible e = false →
      stream_query_doc_with_retries maxRetries rpc 0 = .error e ∧
        query_doc maxRetries rpc = .error e ∧
        run_query_attempts maxRetries rpc 0 = 1) ∧
    (∀ k v, k ≤ maxRetries →
      (∀ i, i < k → is_eligible_db_error (rpc i) = true) →
      rpc k = .ok v →
      stream_query_doc_with_retries maxRetries rpc 0 = .ok v ∧
        query_doc maxRetries rpc = collect_documents v ∧
        run_query_attempts maxRetries rpc 0 = min (k + 1) (maxRetries + 1)) ∧
    ((∀ i, i ≤ maxRetries → is_eligible_db_error (rpc i) = true) →
      run_query_attempts maxRetries rpc 0 = maxRetries + 1 ∧
        ∀ e, rpc maxRetries = .error e →
          stream_query_doc_with_retries maxRetries rpc 0 = .error e ∧
            query_doc maxRetries rpc = .error e) := by
  refine ⟨?_, ?_, ?_⟩
  · intro e h0 hne
    have hstop : ¬ (is_retry_eligible e = true ∧ 0 < maxRetries) := by
      simp [hne]
    refine ⟨stream_retries_rpc_error_stop maxRetries rpc 0 e h0 hstop, ?_, ?_⟩
    · show query_doc_with_retries maxRetries rpc 0 = .error e
      exact query_retries_rpc_error_stop maxRetries rpc 0 e h0 hstop
    · exact attempts_rpc_stop maxRetries rpc 0
        (fun e2 he2 => by rw [h0] at he2; cases he2; exact hstop)
  · intro k v hk hall hok
    have hgen := retry_success_general maxRetries rpc k 0 v (by omega)
      (fun i hi => by simpa using hall i hi) (by simpa using hok)
    refine ⟨hgen.1, hgen.2.1, ?_⟩
    rw [Nat.min_eq_left (by omega)]
    exact hgen.2.2
  · intro hall
    have hgen := retry_exhaust_general maxRetries rpc (maxRetries - 0) 0
      (by omega) rfl (fun i _ h2 => hall i h2)
    refine ⟨by rw [hgen.1]; omega, ?_⟩
    intro e he
    exact hgen.2 e he

/-- Concrete oracle for the C1 witness: attempts 0 and 1 fail with a
retry-eligible database error, attempt 2 succeeds. -/
def c1_rpc_transient : Nat → Except FirestoreError RawQueryStream
  | 0 => .error (.DatabaseError { retry_possible := true, details := "t0" })
  | 1 => .error (.DatabaseError { retry_possible := true, details := "t1" })
  | _ => .ok [Except.ok (some { name := "d" })]

/-- Concrete oracle for the C1 witness: the first attempt fails with a
non-retry-eligible error. -/
def c1_rpc_fatal : Nat → Except FirestoreError RawQueryStream :=
  fun _ => .error (.SystemError "boom")

/-- Concrete oracle for the C1 witness: every attempt fails with a
retry-eligible database error. -/
def c1_rpc_always_failing : Nat → Except FirestoreError RawQueryStream :=
  fun _ => .error (.DatabaseError { retry_possible := true, details := "t" })

/-- Witness for C1 at concrete inputs: a fatal first attempt stops after
one attempt with that error; two transient failures followed by a
success yield the success after three attempts; with cap 2 and nothing
but transient failures, the loop stops after three attempts with the
final error. -/
theorem retry_executor_contract_witness :
    (stream_query_doc_with_retries 5 c1_rpc_fatal 0 =
        .error (.SystemError "boom") ∧
      run_query_attempts 5 c1_rpc_fatal 0 = 1) ∧
    (stream_query_doc_with_retries 5 c1_rpc_transient 0 =
        .ok [Except.ok (some { name := "d" })] ∧
      query_doc 5 c1_rpc_transient = .ok [{ name := "d" }] ∧
      run_query_attempts 5 c1_rpc_transient 0 = 3) ∧
    (run_query_attempts 2 c1_rpc_always_failing 0 = 3 ∧
      stream_query_doc_with_retries 2 c1_rpc_always_failing 0 =
        .error (.DatabaseError { retry_possible := true, details := "t" })) := by
  refine ⟨?_, ?_, ?_⟩
  · have h := (retry_executor_contract 5 c1_rpc_fatal).1
      (.SystemError "boom") rfl rfl
    exact ⟨h.1, h.2.2⟩
  · have h := (retry_executor_contract 5 c1_rpc_transient).2.1 2
      [Except.ok (some { name := "d" })] (by omega) (by decide) rfl
    refine ⟨h.1, ?_, by simpa using h.2.2⟩
    rw [h.2.1]
    rfl
  · have h := (retry_executor_contract 2 c1_rpc_always_failing).2.2 (by decide)
    exact ⟨h.1, (h.2 _ rfl).1⟩

/-- C8: the drop-errors adapter emits exactly the documents of the
`Ok(Some(doc))` elements in order, silently discarding per-item errors
and absent-document markers; the surface-errors adapter emits `Ok(doc)`
for `Ok(Some(doc))` and the error in place for per-item errors, still
discarding absent-document markers; once the stream is established the
full operations apply exactly these filters; on the input
`[Ok(doc1), Err(e), Ok(doc2), Ok(None)]` the two modes yield
`[doc1, doc2]` and `[Ok(doc1), Err(e), Ok(doc2)]`. -/
theorem stream_adapter_contract :
    (∀ (d : Document) (l : RawQueryStream),
      stream_query_doc_filter (.ok (some d) :: l) =
        d :: stream_query_doc_filter l) ∧
    (∀ l : RawQueryStream,
      stream_query_doc_filter (.ok none :: l) = stream_query_doc_filter l) ∧
    (∀ (e : FirestoreError) (l : RawQueryStream),
      stream_query_doc_filter (.error e :: l) = stream_query_doc_filter l) ∧
    stream_query_doc_filter [] = [] ∧
    (∀ (d : Document) (l : RawQueryStream),
      stream_query_doc_with_errors_filter (.ok (some d) :: l) =
        .ok d :: stream_query_doc_with_errors_filter l) ∧
    (∀ l : RawQueryStream,
      stream_query_doc_with_errors_filter (.ok none :: l) =
        stream_query_doc_with_errors_filter l) ∧
    (∀ (e : FirestoreError) (l : RawQueryStream),
      stream_query_doc_with_errors_filter (.error e :: l) =
        .error e :: stream_query_doc_with_errors_filter l) ∧
    stream_query_doc_with_errors_filter [] = [] ∧
    (∀ (maxRetries : Nat) (rpc : Nat → Except FirestoreError RawQueryStream)
      (items : RawQueryStream), rpc 0 = .ok items →
      stream_query_doc maxRetries rpc = .ok (stream_query_doc_filter items) ∧
        stream_query_doc_with_errors maxRetries rpc =
          .ok (stream_query_doc_with_errors_filter items)) ∧
    (∀ (d1 d2 : Document) (e : FirestoreError),
      stream_query_doc_filter [.ok (some d1), .error e, .ok (some d2), .ok none]
          = [d1, d2] ∧
        stream_query_doc_with_errors_filter
          [.ok (some d1), .error e, .ok (some d2), .ok none] =
          [.ok d1, .error e, .ok d2]) := by
  refine ⟨?_, ?_, ?_, rfl, ?_, ?_, ?_, rfl, ?_, ?_⟩
  · intro d l
    simp [stream_query_doc_filter]
  · intro l
    simp [stream_query_doc_filter]
  · intro e l
    simp [stream_query_doc_filter]
  · intro d l
    simp [stream_query_doc_with_errors_filter]
  · intro l
    simp [stream_query_doc_with_errors_filter]
  · intro e l
    simp [stream_query_doc_with_errors_filter]
  · intro maxRetries rpc items hok
    have hest := stream_retries_rpc_ok maxRetries rpc 0 items hok
    constructor
    · show (stream_query_doc_with_retries maxRetries rpc 0).map
        stream_query_doc_filter = _
      rw [hest]
      rfl
    · show (stream_query_doc_with_retries maxRetries rpc 0).map
        stream_query_doc_with_errors_filter = _
      rw [hest]
      rfl
  · intro d1 d2 e
    exact ⟨rfl, rfl⟩

/-- Concrete underlying stream for the C8 witness. -/
def c8_rpc : Nat → Except FirestoreError RawQueryStream :=
  fun _ => .ok [.ok (some { name := "doc1" }), .error (.SystemError "e"),
    .ok (some { name := "doc2" }), .ok none]

/-- Witness for C8 at the spec's concrete input: drop mode yields the
two surviving documents, surface mode keeps the error in place. -/
theorem stream_adapter_contract_witness :
    stream_query_doc 3 c8_rpc = .ok [{ name := "doc1" }, { name := "doc2" }] ∧
      stream_query_doc_with_errors 3 c8_rpc =
        .ok [.ok { name := "doc1" }, .error (.SystemError "e"),
          .ok { name := "doc2" }] := by
  have h := stream_adapter_contract.2.2.2.2.2.2.2.2.1 3 c8_rpc
    [.ok (some { name := "doc1" }), .error (.SystemError "e"),
      .ok (some { name := "doc2" }), .ok none] rfl
  exact ⟨h.1, h.2⟩

/-- All-successful prefixes pass through `tryCollect` until the first
error, which is returned as the overall outcome. -/
lemma tryCollect_append_first_error {ε α : Type} (e : ε) :
    ∀ (pre suf : List (Except ε α)), (∀ x ∈ pre, ∃ a, x = .ok a) →
      tryCollect (pre ++ .error e :: suf) = .error e := by
  intro pre
  induction pre with
  | nil =>
    intro suf hpre
    simp [tryCollect]
  | cons x rest ih =>
    intro suf hpre
    obtain ⟨a, rfl⟩ := hpre x (by simp)
    have hrest := ih suf (fun y hy => hpre y (by simp [hy]))
    simp only [List.cons_append, tryCollect]
    rw [List.append_eq, hrest]

/-- A stream with no errors is collected elementwise. -/
lemma tryCollect_map_ok {ε α : Type} :
    ∀ l : List α, tryCollect (ε := ε) (l.map .ok) = .ok l := by
  intro l
  induction l with
  | nil => rfl
  | cons a rest ih => simp [tryCollect, ih]

/-- C9: the batch materialization of `query_doc` discards every
absent-document marker and fails the whole call with the first per-item
error if any item of the stream fails — it never returns a partial
document list — and once the stream is established the batch call is
exactly this materialization. -/
theorem query_doc_materialization_contract :
    (∀ (pre suf : RawQueryStream) (e : FirestoreError),
      (∀ x ∈ pre, ∃ a, x = .ok a) →
      collect_documents (pre ++ .error e :: suf) = .error e) ∧
    (∀ opts : List (Option Document),
      collect_documents (opts.map .ok) = .ok (opts.filterMap id)) ∧
    (∀ (maxRetries : Nat) (rpc : Nat → Except FirestoreError RawQueryStream)
      (items : RawQueryStream), rpc 0 = .ok items →
      query_doc maxRetries rpc = collect_documents items) := by
  refine ⟨?_, ?_, ?_⟩
  · intro pre suf e hpre
    unfold collect_documents
    rw [tryCollect_append_first_error e pre suf hpre]
  · intro opts
    unfold collect_documents
    rw [tryCollect_map_ok]
  · intro maxRetries rpc items hok
    exact query_retries_rpc_ok maxRetries rpc 0 items hok

/-- Concrete underlying stream for the C9 witness: a document, an
absent-document marker, an item error, then another document. -/
def c9_rpc_item_error : Nat → Except FirestoreError RawQueryStream :=
  fun _ => .ok [.ok (some { name := "d1" }), .ok none,
    .error (.SystemError "item"), .ok (some { name := "d2" })]

/-- Concrete underlying stream for the C9 witness: no item errors. -/
def c9_rpc_all_ok : Nat → Except FirestoreError RawQueryStream :=
  fun _ => .ok [.ok (some { name := "d1" }), .ok none,
    .ok (some { name := "d2" })]

/-- Witness for C9 at concrete inputs: an item error fails the whole
batch call with that error and no partial list; without item errors the
call returns the documents with the markers dropped. -/
theorem query_doc_materialization_contract_witness :
    query_doc 3 c9_rpc_item_error = .error (.SystemError "item") ∧
      query_doc 3 c9_rpc_all_ok = .ok [{ name := "d1" }, { name := "d2" }] := by
  constructor
  · rw [query_doc_materialization_contract.2.2 3 c9_rpc_item_error
      [.ok (some { name := "d1" }), .ok none,
        .error (.SystemError "item"), .ok (some { name := "d2" })] rfl]
    have h := query_doc_materialization_contract.1
      [.ok (some { name := "d1" }), .ok none] [.ok (some { name := "d2" })]
      (.SystemError "item") ?_
    · exact h
    · intro x hx
      simp only [List.mem_cons, List.not_mem_nil, or_false] at hx
      rcases hx with rfl | rfl
      · exact ⟨some { name := "d1" }, rfl⟩
      · exact ⟨none, rfl⟩
  · rw [query_doc_materialization_contract.2.2 3 c9_rpc_all_ok
      [.ok (some { name := "d1" }), .ok none, .ok (some { name := "d2" })] rfl]
    exact query_doc_materialization_contract.2.1
      [some { name := "d1" }, none, some { name := "d2" }]

/-- Shared concrete query params for the partition examples. -/
def example_query_params : FirestoreQueryParams :=
  { parent := none, collection_id := "c", start_at := none, end_at := none }

/-- Shared concrete partition params for the partition examples: no
continuation token yet. -/
def example_partition_params : FirestorePartitionQueryParams :=
  { query_params := example_query_params, partition_count := 4,
    page_size := 2, page_token := none }

/-- The spec's two-page discovery oracle: the first request (no token)
answers with cursor 1 and continuation token "tok1"; the request
carrying "tok1" answers with cursors 2 and 3 and an empty token. -/
def c7_two_pages : FirestorePartitionQueryParams →
    Except FirestoreError (List FirestoreQueryCursor × String) :=
  fun params =>
    match params.page_token with
    | none => .ok ([{ val := 1 }], "tok1")
    | some "tok1" => .ok ([{ val := 2 }, { val := 3 }], "")
    | some _ => .error (.SystemError "unexpected token")

/-- A discovery oracle whose very first page fetch fails. -/
def c7_failing_page : FirestorePartitionQueryParams →
    Except FirestoreError (List FirestoreQueryCursor × String) :=
  fun _ => .error (.SystemError "page fetch failed")

/-- C7: cursor pagination is the unfold over the continuation token —
each step emits all cursors of its page in order, continues to the next
page exactly when the next-page token is non-empty (carrying it forward
via `with_page_token`) and terminates after the page otherwise; on a
page-fetch failure it emits exactly one error element and terminates
permanently with no retry at this layer; the spec's two-page run yields
the flattened sequence of cursors 1, 2, 3 and then terminates. -/
theorem cursor_pagination_contract :
    (∀ pfetch fuel (params : FirestorePartitionQueryParams) cursors next,
      pfetch params = .ok (cursors, next) → next ≠ "" →
      stream_partition_cursors_with_errors pfetch (fuel + 1) params =
        cursors.map .ok ++
          stream_partition_cursors_with_errors pfetch fuel
            (params.with_page_token next)) ∧
    (∀ pfetch fuel (params : FirestorePartitionQueryParams) cursors,
      pfetch params = .ok (cursors, "") →
      stream_partition_cursors_with_errors pfetch (fuel + 1) params =
        cursors.map .ok) ∧
    (∀ pfetch fuel (params : FirestorePartitionQueryParams) e,
      pfetch params = .error e →
      stream_partition_cursors_with_errors pfetch (fuel + 1) params =
        [.error e]) ∧
    stream_partition_cursors_with_errors c7_two_pages 10
        example_partition_params =
      [.ok { val := 1 }, .ok { val := 2 }, .ok { val := 3 }] := by
  refine ⟨?_, ?_, ?_, rfl⟩
  · intro pfetch fuel params cursors next hfetch hne
    simp [stream_partition_cursors_with_errors, hfetch, hne]
  · intro pfetch fuel params cursors hfetch
    simp [stream_partition_cursors_with_errors, hfetch]
  · intro pfetch fuel params e hfetch
    simp [stream_partition_cursors_with_errors, hfetch]

/-- Witness for C7 at concrete inputs: one continuing step, one
terminating step and one failing step of the unfold, instantiated on
the example oracles. -/
theorem cursor_pagination_contract_witness :
    stream_partition_cursors_with_errors c7_two_pages 10
        example_partition_params =
      [FirestoreQueryCursor.mk 1].map .ok ++
        stream_partition_cursors_with_errors c7_two_pages 9
          (example_partition_params.with_page_token "tok1") ∧
    stream_partition_cursors_with_errors c7_two_pages 9
        (example_partition_params.with_page_token "tok1") =
      [FirestoreQueryCursor.mk 2, FirestoreQueryCursor.mk 3].map .ok ∧
    stream_partition_cursors_with_errors c7_failing_page 7
        example_partition_params =
      [.error (.SystemError "page fetch failed")] := by
  refine ⟨?_, ?_, ?_⟩
  · exact cursor_pagination_contract.1 c7_two_pages 9 example_partition_params
      [{ val := 1 }] "tok1" rfl (by decide)
  · exact cursor_pagination_contract.2.1 c7_two_pages 8
      (example_partition_params.with_page_token "tok1")
      [{ val := 2 }, { val := 3 }] rfl
  · exact cursor_pagination_contract.2.2.1 c7_failing_page 6
      example_partition_params (.SystemError "page fetch failed") rfl

/-- A stream containing an error element never collects successfully. -/
lemma tryCollect_error_of_mem {ε α : Type} :
    ∀ l : List (Except ε α), (∃ x ∈ l, ∃ e, x = .error e) →
      ∃ e, tryCollect l = .error e := by
  intro l
  induction l with
  | nil =>
    intro h
    obtain ⟨x, hx, _⟩ := h
    exact absurd hx (List.not_mem_nil x)
  | cons x rest ih =>
    intro h
    cases x with
    | error e => exact ⟨e, by simp [tryCollect]⟩
    | ok a =>
      obtain ⟨y, hy, e, rfl⟩ := h
      rcases List.mem_cons.mp hy with hhead | htail
      · exact absurd hhead (by simp)
      · obtain ⟨e2, he2⟩ := ih ⟨.error e, htail, e, rfl⟩
        exact ⟨e2, by simp [tryCollect, he2]⟩

/-- The orchestrator on a cursor stream whose collection fails: the
whole call fails with that error, whatever the query oracle is. -/
lemma orchestrator_error_eq (maxRetries parallelism fuel : Nat)
    (pfetch : FirestorePartitionQueryParams →
      Except FirestoreError (List FirestoreQueryCursor × String))
    (qrpc : FirestoreQueryParams → Nat → Except FirestoreError RawQueryStream)
    (pp : FirestorePartitionQueryParams) (e : FirestoreError)
    (htc : tryCollect (stream_partition_cursors_with_errors pfetch fuel pp) =
      .error e) :
    stream_partition_query_doc_with_errors maxRetries parallelism fuel
      pfetch qrpc pp = .error e := by
  unfold stream_partition_query_doc_with_errors
  rw [htc]

/-- The orchestrator on an empty collected cursor list: the fallback
branch, which maps the unbounded partition tag over the unpartitioned
error-surfacing stream. -/
lemma orchestrator_empty_eq (maxRetries parallelism fuel : Nat)
    (pfetch : FirestorePartitionQueryParams →
      Except FirestoreError (List FirestoreQueryCursor × String))
    (qrpc : FirestoreQueryParams → Nat → Except FirestoreError RawQueryStream)
    (pp : FirestorePartitionQueryParams)
    (htc : tryCollect (stream_partition_cursors_with_errors pfetch fuel pp) =
      .ok []) :
    stream_partition_query_doc_with_errors maxRetries parallelism fuel
        pfetch qrpc pp =
      (stream_query_doc_with_errors maxRetries (qrpc pp.query_params)).map
        (fun doc_stream => doc_stream.map (fun doc_res =>
          doc_res.map (fun doc => (FirestorePartition.new, doc)))) := by
  unfold stream_partition_query_doc_with_errors
  rw [htc]
  cases h2 : stream_query_doc_with_errors maxRetries (qrpc pp.query_params) with
  | ok doc_stream => simp [Except.map]
  | error e => simp [Except.map]

/-- The orchestrator on a non-empty collected cursor list: the fan-out
branch, whose queue is the fan-in of the per-range message lists over
the consecutive boundary pairs. -/
lemma orchestrator_nonempty_eq (maxRetries parallelism fuel : Nat)
    (pfetch : FirestorePartitionQueryParams →
      Except FirestoreError (List FirestoreQueryCursor × String))
    (qrpc : FirestoreQueryParams → Nat → Except FirestoreError RawQueryStream)
    (pp : FirestorePartitionQueryParams) (C : List FirestoreQueryCursor)
    (htc : tryCollect (stream_partition_cursors_with_errors pfetch fuel pp) =
      .ok C)
    (hne : C ≠ []) :
    stream_partition_query_doc_with_errors maxRetries parallelism fuel
        pfetch qrpc pp =
      .ok (((windows2 (cursors_pairs C)).map
        (partition_range_messages maxRetries qrpc pp.query_params)).flatten) := by
  unfold stream_partition_query_doc_with_errors
  rw [htc]
  have hie : C.isEmpty = false := by
    cases C with
    | nil => exact absurd rfl hne
    | cons a rest => rfl
  simp [hie]

/-- Consecutive 2-windows of a nonempty list closed by a sentinel are
the zip of the list with its shift. -/
lemma windows2_zip_aux {α : Type} :
    ∀ (l : List α) (x y : α),
      windows2 (x :: (l ++ [y])) = List.zip (x :: l) (l ++ [y]) := by
  intro l
  induction l with
  | nil =>
    intro x y
    rfl
  | cons a rest ih =>
    intro x y
    show windows2 (x :: a :: (rest ++ [y])) = _
    show (x, a) :: windows2 (a :: (rest ++ [y])) = _
    rw [ih a y]
    rfl

/-- The boundary pairs of a cursor list: the zip of the start bounds
with the end bounds. -/
lemma windows2_cursors_pairs (C : List FirestoreQueryCursor) :
    windows2 (cursors_pairs C) =
      List.zip (none :: C.map some) (C.map some ++ [none]) := by
  unfold cursors_pairs
  exact windows2_zip_aux (C.map some) none none

/-- A list of `n` cursors yields `n + 1` boundary pairs. -/
lemma windows2_cursors_pairs_length (C : List FirestoreQueryCursor) :
    (windows2 (cursors_pairs C)).length = C.length + 1 := by
  rw [windows2_cursors_pairs]
  simp [List.length_zip]

/-- C2: if any partition-discovery page fetch fails — that is, the
cursor pagination stream contains an error element — the whole
partitioned call fails with an overall error that does not depend on
the query oracle at all: no range sub-query and no fallback query is
issued, and the page-fetch error is never delivered as an element of a
returned merged stream. -/
theorem partition_page_error_contract (maxRetries parallelism fuel : Nat)
    (pfetch : FirestorePartitionQueryParams →
      Except FirestoreError (List FirestoreQueryCursor × String))
    (pp : FirestorePartitionQueryParams)
    (hfail : ∃ x ∈ stream_partition_cursors_with_errors pfetch fuel pp,
      ∃ e, x = Except.error e) :
    ∃ e, ∀ qrpc,
      stream_partition_query_doc_with_errors maxRetries parallelism fuel
        pfetch qrpc pp = Except.error e := by
  obtain ⟨e, htc⟩ := tryCollect_error_of_mem _ hfail
  exact ⟨e, fun qrpc =>
    orchestrator_error_eq maxRetries parallelism fuel pfetch qrpc pp e htc⟩

/-- Witness for C2 at a concrete input: a failing first discovery page
makes the partitioned call fail overall, for every query oracle. -/
theorem partition_page_error_contract_witness :
    ∃ e, ∀ qrpc,
      stream_partition_query_doc_with_errors 3 2 4 c7_failing_page qrpc
        example_partition_params = Except.error e := by
  apply partition_page_error_contract
  refine ⟨.error (.SystemError "page fetch failed"), ?_,
    .SystemError "page fetch failed", rfl⟩
  show _ ∈ stream_partition_cursors_with_errors c7_failing_page 4
    example_partition_params
  rw [show stream_partition_cursors_with_errors c7_failing_page 4
    example_partition_params = [.error (.SystemError "page fetch failed")]
    from rfl]
  simp

/-- C6: when cursor discovery succeeds with zero cursors, the
partitioned call falls back to a single unpartitioned error-surfacing
streaming query, and every successfully emitted item pairs the document
with the partition that has no start and no end bound. -/
theorem partition_fallback_contract (maxRetries parallelism fuel : Nat)
    (pfetch : FirestorePartitionQueryParams →
      Except FirestoreError (List FirestoreQueryCursor × String))
    (qrpc : FirestoreQueryParams → Nat → Except FirestoreError RawQueryStream)
    (pp : FirestorePartitionQueryParams)
    (hempty : tryCollect (stream_partition_cursors_with_errors pfetch fuel pp) =
      .ok []) :
    stream_partition_query_doc_with_errors maxRetries parallelism fuel
        pfetch qrpc pp =
      (stream_query_doc_with_errors maxRetries (qrpc pp.query_params)).map
        (fun doc_stream => doc_stream.map (fun doc_res =>
          doc_res.map (fun doc => (FirestorePartition.new, doc)))) ∧
    FirestorePartition.new.start_at = none ∧
    FirestorePartition.new.end_at = none ∧
    (∀ Q, stream_partition_query_doc_with_errors maxRetries parallelism fuel
        pfetch qrpc pp = Except.ok Q →
      ∀ x ∈ Q, ∀ p doc, x = Except.ok (p, doc) → p = FirestorePartition.new) := by
  have heq := orchestrator_empty_eq maxRetries parallelism fuel pfetch qrpc
    pp hempty
  refine ⟨heq, rfl, rfl, ?_⟩
  intro Q hQ x hx p doc hxe
  rw [heq] at hQ
  cases hs : stream_query_doc_with_errors maxRetries (qrpc pp.query_params) with
  | error e =>
    rw [hs] at hQ
    simp [Except.map] at hQ
  | ok docs =>
    rw [hs] at hQ
    simp only [Except.map] at hQ
    injection hQ with h
    subst h
    obtain ⟨r, hr, rfl⟩ := List.mem_map.mp hx
    cases r with
    | error e => simp [Except.map] at hxe
    | ok d0 =>
      simp only [Except.map, Except.ok.injEq, Prod.mk.injEq] at hxe
      exact hxe.1.symm

/-- Discovery oracle for the C6 witness: a single page with zero
cursors and no continuation token. -/
def c6_pfetch_empty : FirestorePartitionQueryParams →
    Except FirestoreError (List FirestoreQueryCursor × String) :=
  fun _ => .ok ([], "")

/-- Query oracle for the partition witnesses: establishment always
succeeds with a one-document stream. -/
def c6_qrpc : FirestoreQueryParams → Nat →
    Except FirestoreError RawQueryStream :=
  fun _ _ => .ok [.ok (some { name := "w" })]

/-- Witness for C6 at a concrete input: zero discovered cursors fall
back to the unpartitioned stream tagged with the unbounded partition. -/
theorem partition_fallback_contract_witness :
    stream_partition_query_doc_with_errors 3 2 4 c6_pfetch_empty c6_qrpc
        example_partition_params =
      (stream_query_doc_with_errors 3
          (c6_qrpc example_partition_params.query_params)).map
        (fun doc_stream => doc_stream.map (fun doc_res =>
          doc_res.map (fun doc => (FirestorePartition.new, doc)))) :=
  (partition_fallback_contract 3 2 4 c6_pfetch_empty c6_qrpc
    example_partition_params rfl).1

/-- C10: in the non-empty-cursor branch the orchestrator returns only
after every range sub-query has completed — the returned value is the
already fully materialized fan-in queue, the flattening of the
per-range message lists — so every per-range result and per-range error
is already in the queue by the time the caller receives the stream, and
consuming the returned queue issues no further RPCs. -/
theorem partition_fanin_contract (maxRetries parallelism fuel : Nat)
    (pfetch : FirestorePartitionQueryParams →
      Except FirestoreError (List FirestoreQueryCursor × String))
    (qrpc : FirestoreQueryParams → Nat → Except FirestoreError RawQueryStream)
    (pp : FirestorePartitionQueryParams) (C : List FirestoreQueryCursor)
    (hc : tryCollect (stream_partition_cursors_with_errors pfetch fuel pp) =
      .ok C)
    (hne : C ≠ []) :
    stream_partition_query_doc_with_errors maxRetries parallelism fuel
        pfetch qrpc pp =
      .ok (((windows2 (cursors_pairs C)).map
        (partition_range_messages maxRetries qrpc pp.query_params)).flatten) ∧
    (∀ pair ∈ windows2 (cursors_pairs C),
      ∀ m ∈ partition_range_messages maxRetries qrpc pp.query_params pair,
      ∀ Q, stream_partition_query_doc_with_errors maxRetries parallelism fuel
        pfetch qrpc pp = Except.ok Q → m ∈ Q) := by
  have heq := orchestrator_nonempty_eq maxRetries parallelism fuel pfetch qrpc
    pp C hc hne
  refine ⟨heq, ?_⟩
  intro pair hpair m hm Q hQ
  rw [heq] at hQ
  injection hQ with h
  subst h
  exact List.mem_flatten.mpr ⟨_, List.mem_map_of_mem _ hpair, hm⟩

/-- Discovery oracle for the C10 witness: one page with one cursor. -/
def c10_pfetch_one : FirestorePartitionQueryParams →
    Except FirestoreError (List FirestoreQueryCursor × String) :=
  fun _ => .ok ([{ val := 1 }], "")

/-- Witness for C10 at a concrete input: with one discovered cursor the
call returns the fully materialized fan-in of the two range message
lists. -/
theorem partition_fanin_contract_witness :
    stream_partition_query_doc_with_errors 3 2 4 c10_pfetch_one c6_qrpc
        example_partition_params =
      .ok (((windows2 (cursors_pairs [{ val := 1 }])).map
        (partition_range_messages 3 c6_qrpc
          example_partition_params.query_params)).flatten) :=
  (partition_fanin_contract 3 2 4 c10_pfetch_one c6_qrpc
    example_partition_params [{ val := 1 }] rfl (by simp)).1

/-- C4: `n` discovered cursors yield the `n + 1` consecutive pairs of
the boundary list `[None] ++ C ++ [None]`; for cursors `[c1, c2]` the
orchestrator issues exactly 3 range sub-queries whose bounds
`(None, c1), (c1, c2), (c2, None)` are written onto copies of the base
query params; and every document emitted for a range is paired with a
partition carrying exactly that range's bounds. -/
theorem partition_range_bounds_contract :
    (∀ C : List FirestoreQueryCursor,
      windows2 (cursors_pairs C) =
        List.zip (none :: C.map some) (C.map some ++ [none]) ∧
      (windows2 (cursors_pairs C)).length = C.length + 1) ∧
    (∀ c1 c2 : FirestoreQueryCursor,
      windows2 (cursors_pairs [c1, c2]) =
        [(none, some c1), (some c1, some c2), (some c2, none)]) ∧
    (∀ (base : FirestoreQueryParams)
        (pair : Option FirestoreQueryCursor × Option FirestoreQueryCursor),
      range_sub_query_params base pair =
        { base with start_at := pair.1, end_at := pair.2 } ∧
      range_partition base pair =
        { start_at := pair.1, end_at := pair.2 }) ∧
    (∀ (maxRetries : Nat)
        (qrpc : FirestoreQueryParams → Nat →
          Except FirestoreError RawQueryStream)
        (base : FirestoreQueryParams)
        (pair : Option FirestoreQueryCursor × Option FirestoreQueryCursor),
      ∀ x ∈ partition_range_messages maxRetries qrpc base pair,
      ∀ p doc, x = Except.ok (p, doc) →
        p = { start_at := pair.1, end_at := pair.2 }) ∧
    (∀ (maxRetries parallelism fuel : Nat)
        (pfetch : FirestorePartitionQueryParams →
          Except FirestoreError (List FirestoreQueryCursor × String))
        (qrpc : FirestoreQueryParams → Nat →
          Except FirestoreError RawQueryStream)
        (pp : FirestorePartitionQueryParams) (c1 c2 : FirestoreQueryCursor),
      tryCollect (stream_partition_cursors_with_errors pfetch fuel pp) =
        Except.ok [c1, c2] →
      (issued_range_queries pp.query_params [c1, c2]).length = 3 ∧
        issued_range_queries pp.query_params [c1, c2] =
          [{ pp.query_params with start_at := none, end_at := some c1 },
            { pp.query_params with start_at := some c1, end_at := some c2 },
            { pp.query_params with start_at := some c2, end_at := none }] ∧
        stream_partition_query_doc_with_errors maxRetries parallelism fuel
            pfetch qrpc pp =
          Except.ok (((windows2 (cursors_pairs [c1, c2])).map
            (partition_range_messages maxRetries qrpc
              pp.query_params)).flatten)) := by
  refine ⟨?_, ?_, ?_, ?_, ?_⟩
  · intro C
    exact ⟨windows2_cursors_pairs C, windows2_cursors_pairs_length C⟩
  · intro c1 c2
    rfl
  · intro base pair
    exact ⟨rfl, rfl⟩
  · intro maxRetries qrpc base pair x hx p doc hxe
    unfold partition_range_messages at hx
    cases hs : stream_query_doc_with_errors maxRetries
        (qrpc (range_sub_query_params base pair)) with
    | error e =>
      rw [hs] at hx
      rw [List.mem_singleton] at hx
      rw [hx] at hxe
      exact absurd hxe (by simp)
    | ok s =>
      rw [hs] at hx
      obtain ⟨r, hr, rfl⟩ := List.mem_map.mp hx
      cases r with
      | error e => simp [Except.map] at hxe
      | ok d0 =>
        simp only [Except.map, Except.ok.injEq, Prod.mk.injEq] at hxe
        rw [← hxe.1]
        rfl
  · intro maxRetries parallelism fuel pfetch qrpc pp c1 c2 hc
    refine ⟨rfl, rfl, ?_⟩
    exact orchestrator_nonempty_eq maxRetries parallelism fuel pfetch qrpc
      pp [c1, c2] hc (by simp)

/-- Discovery oracle for the C4 witness: one page with cursors 1, 2. -/
def c4_pfetch_two : FirestorePartitionQueryParams →
    Except FirestoreError (List FirestoreQueryCursor × String) :=
  fun _ => .ok ([{ val := 1 }, { val := 2 }], "")

/-- Witness for C4 at a concrete input: two discovered cursors give
exactly three issued range sub-queries with the expected bounds and the
fan-in of the three range message lists. -/
theorem partition_range_bounds_contract_witness :
    (issued_range_queries example_partition_params.query_params
        [{ val := 1 }, { val := 2 }]).length = 3 ∧
      issued_range_queries example_partition_params.query_params
          [{ val := 1 }, { val := 2 }] =
        [{ example_partition_params.query_params with
            start_at := none, end_at := some { val := 1 } },
          { example_partition_params.query_params with
            start_at := some { val := 1 }, end_at := some { val := 2 } },
          { example_partition_params.query_params with
            start_at := some { val := 2 }, end_at := none }] ∧
      stream_partition_query_doc_with_errors 3 2 4 c4_pfetch_two c6_qrpc
          example_partition_params =
        Except.ok (((windows2 (cursors_pairs [{ val := 1 }, { val := 2 }])).map
          (partition_range_messages 3 c6_qrpc
            example_partition_params.query_params)).flatten) :=
  partition_range_bounds_contract.2.2.2.2 3 2 4 c4_pfetch_two c6_qrpc
    example_partition_params { val := 1 } { val := 2 } rfl

/-- Discovery oracle for the C3 counterexample: the first page carries
cursor 1 and a continuation token, the second page fetch fails. -/
def c3_pfetch : FirestorePartitionQueryParams →
    Except FirestoreError (List FirestoreQueryCursor × String) :=
  fun params =>
    match params.page_token with
    | none => .ok ([{ val := 1 }], "t2")
    | some _ => .error (.SystemError "page2")

/-- C3 counterexample: the orchestrator does not decide via one-element
look-ahead. On `c3_pfetch` the first cursor-stream element — all a peek
could inspect — is already a cursor, which settles the zero-cursors
question; yet the orchestrator consumes both elements of the stream
before its branch and the whole call fails with the second element's
page-fetch error, so the fallback decision was not made from the
look-ahead without fully draining the pagination stream first. -/
theorem partition_peek_counterexample :
    (stream_partition_cursors_with_errors c3_pfetch 5
        example_partition_params).head? =
      some (Except.ok { val := 1 }) ∧
    cursor_elements_collected_before_branch c3_pfetch 5
        example_partition_params = 2 ∧
    orchestrator_falls_back c3_pfetch 5 example_partition_params = false ∧
    stream_partition_query_doc_with_errors 3 2 5 c3_pfetch c6_qrpc
        example_partition_params = Except.error (.SystemError "page2") := by
  refine ⟨rfl, rfl, rfl, ?_⟩
  exact orchestrator_error_eq 3 2 5 c3_pfetch c6_qrpc
    example_partition_params _ rfl

/-- C3 amended: the cursor stream is built peekable, but the
orchestrator does not use the look-ahead — it fully collects the cursor
stream and takes the fallback branch exactly when the collected list is
empty, so an error element anywhere in the stream fails the whole call
even when cursors precede it. -/
theorem partition_collects_before_decision
    (pfetch : FirestorePartitionQueryParams →
      Except FirestoreError (List FirestoreQueryCursor × String))
    (fuel : Nat) (pp : FirestorePartitionQueryParams) :
    (orchestrator_falls_back pfetch fuel pp = true ↔
      tryCollect (stream_partition_cursors_with_errors pfetch fuel pp) =
        Except.ok []) ∧
    (∀ (maxRetries parallelism : Nat)
        (qrpc : FirestoreQueryParams → Nat →
          Except FirestoreError RawQueryStream)
        (e : FirestoreError)
        (pre suf : List (Except FirestoreError FirestoreQueryCursor)),
      stream_partition_cursors_with_errors pfetch fuel pp =
        pre ++ Except.error e :: suf →
      (∀ x ∈ pre, ∃ c, x = Except.ok c) →
      stream_partition_query_doc_with_errors maxRetries parallelism fuel
        pfetch qrpc pp = Except.error e) := by
  constructor
  · unfold orchestrator_falls_back
    cases h : tryCollect
        (stream_partition_cursors_with_errors pfetch fuel pp) with
    | ok c => simp [List.isEmpty_iff]
    | error e => simp
  · intro maxRetries parallelism qrpc e pre suf hstream hpre
    have htc : tryCollect
        (stream_partition_cursors_with_errors pfetch fuel pp) =
        Except.error e := by
      rw [hstream]
      exact tryCollect_append_first_error e pre suf hpre
    exact orchestrator_error_eq maxRetries parallelism fuel pfetch qrpc
      pp e htc

/-- Witness for the amended C3 at a concrete input: a cursor followed by
a page-fetch error fails the whole call — the element beyond the
one-element look-ahead decided the outcome. -/
theorem partition_collects_before_decision_witness :
    stream_partition_query_doc_with_errors 4 2 5 c3_pfetch c6_qrpc
        example_partition_params = Except.error (.SystemError "page2") := by
  apply (partition_collects_before_decision c3_pfetch 5
      example_partition_params).2 4 2 c6_qrpc (.SystemError "page2")
    [Except.ok { val := 1 }] [] rfl
  intro x hx
  rw [List.mem_singleton] at hx
  exact ⟨{ val := 1 }, hx⟩

/-- C5 counterexample: with `parallelism = 0` the futures contract for
`for_each_concurrent` imposes no limit at all, so a state with one
in-flight range task is reachable for a one-cursor (two-range)
partitioned query although the claimed cap is 0. -/
theorem bounded_concurrency_zero_counterexample :
    ForEachConcurrentReachable 0
        ((windows2 (cursors_pairs [{ val := 1 }])).length)
        { pending := 1, active := 1 } ∧
    ¬ (ForEachConcurrentState.active { pending := 1, active := 1 } ≤ 0) := by
  constructor
  · exact .step _ _ .init (.start _ (Or.inr rfl) (by decide))
  · simp

/-- C5 amended: for every positive `parallelism`, every state of the
fan-out stage reachable while running the `|C| + 1` range sub-queries
keeps at most `parallelism` of them concurrently in flight; only the
limit-zero case, which the underlying library treats as unlimited,
escapes the cap. -/
theorem bounded_concurrency_cap (parallelism : Nat)
    (C : List FirestoreQueryCursor) (hpos : 0 < parallelism) :
    ∀ s, ForEachConcurrentReachable parallelism
      ((windows2 (cursors_pairs C)).length) s → s.active ≤ parallelism := by
  intro s h
  induction h with
  | init => simp
  | step s1 t1 hs hstep ih =>
    cases hstep with
    | start hslot hpending =>
      show s1.active + 1 ≤ parallelism
      rcases hslot with hlt | hzero
      · omega
      · omega
    | finish hactive =>
      show s1.active - 1 ≤ parallelism
      omega

/-- Witness for the amended C5 at a concrete input: with cap 2 and the
three ranges of a two-cursor query, the state reached by starting one
task respects the cap. -/
theorem bounded_concurrency_cap_witness :
    ForEachConcurrentState.active { pending := 2, active := 1 } ≤ 2 := by
  have hreach : ForEachConcurrentReachable 2
      ((windows2 (cursors_pairs [{ val := 1 }, { val := 2 }])).length)
      { pending := 2, active := 1 } :=
    .step _ _ .init (.start _ (Or.inl (by decide)) (by decide))
  exact bounded_concurrency_cap 2 [{ val := 1 }, { val := 2 }] (by decide)
    _ hreach

end FirestoreRs
